import Mathlib

/-!
Shallow embedding of the feed-retrieval and abuse-containment subsystem of
`srv/controllers/StoryController.ts` (the story HTTP controller).  The
persistent store (TypeORM repositories) is modelled as explicit lists of
rows; each controller action becomes a pure function from a store and the
request's parameters to a result and the updated store.  HTTP status codes
are modelled as result constructors.  Express query parameters are modelled
by their numeric value (`Option Nat`), with JavaScript's `undefined`/NaN
behaviour written out where the controller depends on it.
-/

/-- An author row (the `User` entity), restricted to the columns the story
controller reads. -/
structure User where
  id : Nat
  username : String
  email : String
  photoUrl : String
  isBanned : Bool
  isSuperuser : Bool
deriving Repr, DecidableEq

/-- A content-item row (the `Story` entity).  `userId` is nullable:
anonymous authorship is allowed.  An entity object that has not been saved
yet carries the placeholder `id = 0` and `createdAt = 0`; the store assigns
both columns at the first save. -/
structure Story where
  id : Nat
  userId : Option Nat
  content : String
  description : String
  createdAt : Nat
  viewsCount : Nat
  likesCount : Nat
  isPublic : Bool
  isDeleted : Bool
  postcard : Option String
deriving Repr, DecidableEq

/-- A `Like` row: the (user, story) pair. -/
structure LikeRec where
  userId : Nat
  storyId : Nat
deriving Repr, DecidableEq

/-- The persistent store: all shared state of the subsystem. -/
structure Store where
  users : List User
  stories : List Story
  likes : List LikeRec
deriving Repr, DecidableEq

/-- `userRepository.findOne(id)`: the user row with the given id. -/
def findUser (users : List User) (uid : Nat) : Option User :=
  users.find? (fun u => u.id == uid)

/-- `repository.findOne(id)` on stories: the story row with the given id. -/
def findStory (stories : List Story) (sid : Nat) : Option Story :=
  stories.find? (fun s => s.id == sid)

/-- `likeRepository.findOne({userId, storyId})`. -/
def findLike (likes : List LikeRec) (uid sid : Nat) : Option LikeRec :=
  likes.find? (fun l => l.userId == uid && l.storyId == sid)

/-- The row filter of the shared feed query builder `query` (controller
lines 22-34): `isPublic = true`, `isDeleted = false`,
`createdAt < beforeDate`, inner join to the author row, and
`u.isBanned = false` on the joined row.  The inner join drops a story whose
`userId` is null or matches no user row. -/
def storyInFeed (users : List User) (beforeDate : Nat) (s : Story) : Bool :=
  s.isPublic && !s.isDeleted && decide (s.createdAt < beforeDate) &&
    (match s.userId with
     | none => false
     | some uid =>
       match findUser users uid with
       | none => false
       | some u => !u.isBanned)

/-- The set of rows matched by the shared feed query (before ordering and
pagination); also the row set of the count query at line 62. -/
def feedQuery (st : Store) (beforeDate : Nat) : List Story :=
  st.stories.filter (storyInFeed st.users beforeDate)

/-- The projection allow-list `select` (controller lines 12-20). -/
def select : List String :=
  ["id", "content", "createdAt", "viewsCount", "postcard", "userId", "likesCount"]

/-- The story columns selected by both the feed query and the single-item
read: `select.map(x => story.x)` (lines 30 and 95). -/
def baseSelect : List String :=
  select.map (fun x => "story." ++ x)

/-- Columns of the feed query: `query` always runs
`.addSelect(['u.isBanned'])` after the inner join (line 33), for every
caller. -/
def feedSelect : List String :=
  baseSelect ++ ["u.isBanned"]

/-- Columns of the single-item read `one` (lines 95-107): the base set,
plus five author columns added only when the caller is a superuser. -/
def oneSelect (isSuperuser : Bool) : List String :=
  if isSuperuser then
    baseSelect ++ ["u.id", "u.username", "u.email", "u.photoUrl", "u.isBanned"]
  else
    baseSelect

/-- Value of an ORDER BY key on a story row.  A key naming no story column
(including the `random()` expression) sorts by a store-defined order,
modelled as a constant key. -/
def keyVal (k : String) (s : Story) : Nat :=
  if k == "story.id" then s.id
  else if k == "story.createdAt" then s.createdAt
  else if k == "story.viewsCount" then s.viewsCount
  else if k == "story.likesCount" then s.likesCount
  else 0

/-- Lexicographic DESC comparison over a list of ORDER BY keys: `a` sorts
no later than `b` when, at the first key where they differ, `a`'s value is
the larger. -/
def keysBefore (keys : List String) (a b : Story) : Bool :=
  match keys with
  | [] => true
  | k :: rest =>
    if keyVal k a == keyVal k b then keysBefore rest a b
    else decide (keyVal k a > keyVal k b)

/-- The ordered row list for a list of ORDER BY keys (each DESC). -/
def sortStories (keys : List String) (l : List Story) : List Story :=
  List.insertionSort (fun a b => keysBefore keys a b = true) l

/-- JavaScript's `orderBy.split(',')`, written as structural recursion over
the character list: the segments of the string between commas, in order
(an empty string yields the one segment ""). -/
def splitCommaAux : List Char → List Char → List String
  | [], acc => [String.mk acc.reverse]
  | c :: rest, acc =>
    if c == ',' then String.mk acc.reverse :: splitCommaAux rest []
    else splitCommaAux rest (c :: acc)

/-- The comma-split of a string (JS `split(',')`). -/
def splitComma (s : String) : List String :=
  splitCommaAux s.data []

/-- The ORDER BY clause the `all` handler builds (lines 50-58).  The
builder starts from `orderBy('story.createdAt', 'DESC')`; when an `orderBy`
parameter is present and non-empty, each comma-separated token is passed to
`.orderBy(...)` again — and TypeORM's `orderBy` REPLACES the whole clause,
so each iteration overwrites the previous one.  `RAND()` maps to the
expression `random()`; any other token `x` maps to the column `story.x`
with direction DESC. -/
def appliedOrderKeys (orderBy? : Option String) : List String :=
  match orderBy? with
  | none => ["story.createdAt"]
  | some s =>
    if s.isEmpty then ["story.createdAt"]
    else
      (splitComma s).foldl
        (fun _ x => if x == "RAND()" then ["random()"] else ["story." ++ x])
        ["story.createdAt"]

/-- The ORDER BY clause the specification describes: all keys of the
comma-separated list, in the order given, the first primary and each later
one a tie-break.  Stated from the spec's words, for comparison with
`appliedOrderKeys`. -/
def claimedOrderKeys (orderBy? : Option String) : List String :=
  match orderBy? with
  | none => ["story.createdAt"]
  | some s =>
    if s.isEmpty then ["story.createdAt"]
    else
      (splitComma s).map
        (fun x => if x == "RAND()" then "random()" else "story." ++ x)

/-- `limit` at line 41: the raw parameter when present (truthy) and below
51, else the default 10. -/
def effectiveLimit (limit? : Option Nat) : Nat :=
  match limit? with
  | none => 10
  | some l => if l ≠ 0 ∧ l < 51 then l else 10

/-- `.skip(req.query.offset)` at line 49: no skip when the parameter is
absent. -/
def effectiveOffset (offset? : Option Nat) : Nat :=
  offset?.getD 0

/-- Lines 66 and 71: `loaded = Number(req.query.offset) +
Number(req.query.limit)` and `hasMore = itemCount > loaded`.  `Number` of
an absent parameter is NaN, and every `>` comparison against NaN is false,
so `hasMore` is false whenever either raw parameter is absent; the clamped
`limit` variable and the default offset are NOT used here. -/
def hasMoreOf (itemCount : Nat) (offset? limit? : Option Nat) : Bool :=
  match offset?, limit? with
  | some o, some l => decide (itemCount > o + l)
  | _, _ => false

/-- The list-response envelope (interfaces.ts `StoriesResponse`). -/
structure StoriesResponse where
  hasMore : Bool
  count : Nat
  data : List Story
  beforeDate : Nat
deriving Repr, DecidableEq

/-- The `all` handler (lines 37-81): resolve the `beforeDate` cursor
(default: now), run the shared feed query, order it by the built ORDER BY
clause, paginate with skip/take, and assemble the envelope with the count
query's total and the `hasMore` flag of line 71. -/
def allEndpoint (st : Store) (beforeDate? limit? offset? : Option Nat)
    (orderBy? : Option String) (now : Nat) : StoriesResponse :=
  let beforeDate := beforeDate?.getD now
  let rows := feedQuery st beforeDate
  let page :=
    ((sortStories (appliedOrderKeys orderBy?) rows).drop
        (effectiveOffset offset?)).take (effectiveLimit limit?)
  { hasMore := hasMoreOf rows.length offset? limit?
    count := rows.length
    data := page
    beforeDate := beforeDate }

/-- Save of an already-persisted story row: the row with the same id is
replaced. -/
def updateStory (st : Store) (s : Story) : Store :=
  { st with stories := st.stories.map (fun t => if t.id == s.id then s else t) }

/-- The entity as the first save assigns id and creation timestamp. -/
def assignRow (s : Story) (newId now : Nat) : Story :=
  { s with id := newId, createdAt := now }

/-- The entity as finally persisted by `create`: assigned id and timestamp,
postcard path recorded by the second save. -/
def savedRow (s : Story) (newId now : Nat) (p : String) : Story :=
  { s with id := newId, createdAt := now, postcard := some p }

/-- Save of a new story entity: the store assigns the id and the creation
timestamp and appends the row. -/
def insertStory (st : Store) (s : Story) (newId now : Nat) : Store :=
  { st with stories := st.stories ++ [assignRow s newId now] }

/-- Result of the single-item read `one`. -/
inductive OneResult where
  | notFound
  | found (s : Story)
deriving Repr, DecidableEq

/-- The `one` handler (lines 83-120): fetch the story by id with NO
visibility filter (`where { id }` only — `isPublic`, `isDeleted` and the
author's ban state are not consulted), bump its view counter by one, save
the bumped row, and send it.  404 when the id resolves to no row.  (The
caller's superuser flag changes only the selected columns, `oneSelect`; the
row lookup and the counter bump are the same for every caller.) -/
def one (st : Store) (sid : Nat) : OneResult × Store :=
  match findStory st.stories sid with
  | none => (.notFound, st)
  | some s =>
    let bumped := { s with viewsCount := s.viewsCount + 1 }
    (.found bumped, updateStory st bumped)

/-- Modelled from the spec: the `Story` entity file (`srv/entity/Story.ts`)
is not among the staged sources; §3 and §4.2 of the spec give the column
defaults of a freshly constructed item — visible (`isPublic` true, not
suppressed), counters at zero, no postcard yet.  The placeholder id and
timestamp 0 stand for columns the store has not assigned. -/
def mkStory (uid : Option Nat) (content description : String) : Story :=
  { id := 0
    userId := uid
    content := content
    description := description
    createdAt := 0
    viewsCount := 0
    likesCount := 0
    isPublic := true
    isDeleted := false
    postcard := none }

/-- The duplicate-count query of `create` (lines 154-161): existing rows by
the same author with identical body content and `isPublic = true` (the
filter does not exclude previously hidden duplicates: they are counted
while they keep `isPublic = true`). -/
def duplicateCount (stories : List Story) (uid : Nat) (content : String) : Nat :=
  (stories.filter
      (fun s => s.userId == some uid && s.content == content && s.isPublic)).length

/-- Result of the `create` handler. -/
inductive CreateResult where
  | userNotFound
  | validationFailed
  | silentUnsaved (s : Story)
  | postcardFailed (s : Story)
  | saved (s : Story)
deriving Repr, DecidableEq

/-- The tail of `create` (lines 177-195): first save, then the external
postcard renderer (`pc`, modelled as a function that may fail), then the
second save recording the postcard path.  A renderer failure is a 500 to
the caller, but the item is already persisted by the first save. -/
def finishSave (st : Store) (s : Story) (pc : Story → Option String)
    (newId now : Nat) : CreateResult × Store :=
  match pc (assignRow s newId now) with
  | none => (.postcardFailed (assignRow s newId now), insertStory st s newId now)
  | some path =>
    (.saved (savedRow s newId now path),
     updateStory (insertStory st s newId now) (savedRow s newId now path))

/-- The `create` handler (lines 122-196).  `valid` models the pluggable
class-validator contract; `pc` the external postcard renderer; `newId` and
`now` the columns the store assigns at the first save.  The authenticated
path: resolve the author (400 when the id resolves to no row); if the
author is already banned, send the constructed story WITHOUT saving it
(lines 141-145); validate; count existing public duplicates; at a count in
1..19 set `isDeleted` before saving (line 165); at a count of 20 or more,
set and persist the author's banned flag and send the constructed story
without saving it (lines 166-174); otherwise save normally.  The anonymous
path skips the guard and the validation entirely and goes straight to the
save. -/
def create (st : Store) (uid? : Option Nat) (content description : String)
    (valid : Story → Bool) (pc : Story → Option String)
    (newId now : Nat) : CreateResult × Store :=
  match uid? with
  | none => finishSave st (mkStory none content description) pc newId now
  | some uid =>
    match findUser st.users uid with
    | none => (.userNotFound, st)
    | some user =>
      let story := mkStory (some uid) content description
      if user.isBanned then (.silentUnsaved story, st)
      else if !(valid story) then (.validationFailed, st)
      else
        let exist := duplicateCount st.stories uid content
        if exist ≠ 0 then
          if exist < 20 then
            finishSave st { story with isDeleted := true } pc newId now
          else
            let banned := { user with isBanned := true }
            let users := st.users.map (fun u => if u.id == uid then banned else u)
            (.silentUnsaved story, { st with users := users })
        else finishSave st story pc newId now

/-- Result of the `like` handler.  `notFound` is in the taxonomy (the
spec's NotFound) but, as proved below, `like` never produces it: a missing
story or user makes `findOneOrFail` throw into the catch-all, which replies
500. -/
inductive LikeResult where
  | conflict
  | notFound
  | internalError
  | ok
deriving Repr, DecidableEq

/-- The `like` handler (lines 198-224): 409 when a Like row for the pair
exists; otherwise `findOneOrFail` on the story and then on the user — a
throw lands in the catch block, which replies 500; otherwise the Like row
is created and the reply is 200. -/
def like (st : Store) (uid sid : Nat) : LikeResult × Store :=
  match findLike st.likes uid sid with
  | some _ => (.conflict, st)
  | none =>
    match findStory st.stories sid with
    | none => (.internalError, st)
    | some _ =>
      match findUser st.users uid with
      | none => (.internalError, st)
      | some _ =>
        (.ok, { st with likes := st.likes ++ [{ userId := uid, storyId := sid }] })

/-- Result of the `edit` handler. -/
inductive EditResult where
  | notFound
  | forbidden
  | validationFailed
  | ok (s : Story)
deriving Repr, DecidableEq

/-- The permission guard of `edit` (lines 279-288), written exactly as the
source computes it under JavaScript truthiness:
`isSuperuser = user && user.isSuperuser`,
`isOwner = user && story.userId !== user.id` (note the source compares with
`!==`), and the request is rejected only when
`!user && !isSuperuser && !isOwner` — with `user` undefined all three
conjuncts are true; with `user` resolved the first conjunct is already
false. -/
def editAllowed (user : Option User) (story : Story) : Bool :=
  let isSuperuser :=
    match user with
    | none => false
    | some u => u.isSuperuser
  let isOwner :=
    match user with
    | none => false
    | some u => story.userId != some u.id
  !(!user.isSome && !isSuperuser && !isOwner)

/-- The `edit` handler (lines 264-313): resolve the story (404 when
absent); resolve the caller's user row when a caller id is present; apply
the permission guard `editAllowed` (403 on rejection, story unchanged);
apply the patch (lines 294-299, schema-membership patch application,
abstracted here as a function on the row); re-validate; save.  The
persistence-conflict reply of line 309 is outside the pure store model. -/
def edit (st : Store) (uid? : Option Nat) (sid : Nat)
    (applyPatch : Story → Story) (valid : Story → Bool) : EditResult × Store :=
  match findStory st.stories sid with
  | none => (.notFound, st)
  | some story =>
    let user : Option User :=
      match uid? with
      | none => none
      | some uid => findUser st.users uid
    if !(editAllowed user story) then (.forbidden, st)
    else
      let patched := applyPatch story
      if !(valid patched) then (.validationFailed, st)
      else (.ok patched, updateStory st patched)

/-- Replacing, in a keyed row list, every row whose key matches `k` by a row
`new` whose key is `k` keeps the first `find?` hit at `new`, provided some
row matched before. -/
theorem find?_key_map_replace {α : Type} (key : α → Nat) (l : List α) (k : Nat)
    (a new : α) (h : l.find? (fun x => key x == k) = some a) (hk : key new = k) :
    (l.map (fun x => if key x == k then new else x)).find? (fun x => key x == k)
      = some new := by
  induction l with
  | nil => simp at h
  | cons x xs ih =>
    by_cases hx : key x == k
    · simp only [List.map_cons, if_pos hx]
      rw [List.find?_cons_of_pos]
      simpa using hk
    · simp only [List.map_cons, if_neg hx]
      rw [List.find?_cons_of_neg _ (by simpa using hx)]
      rw [List.find?_cons_of_neg _ (by simpa using hx)] at h
      exact ih h

/-- Replacing rows keyed `k` changes nothing when no row has key `k`. -/
theorem map_replace_of_key_not_mem {α : Type} (key : α → Nat) (l : List α)
    (k : Nat) (new : α) (h : ∀ x ∈ l, key x ≠ k) :
    l.map (fun x => if key x == k then new else x) = l := by
  induction l with
  | nil => rfl
  | cons x xs ih =>
    simp only [List.map_cons]
    rw [if_neg (by simpa using h x (by simp)), ih]
    intro y hy
    exact h y (by simp [hy])

/-- A row accepted by the feed filter satisfies every conjunct of the
filter. -/
theorem storyInFeed_spec {users : List User} {d : Nat} {s : Story}
    (h : storyInFeed users d s = true) :
    s.isPublic = true ∧ s.isDeleted = false ∧ s.createdAt < d ∧
      ∃ uid u, s.userId = some uid ∧ findUser users uid = some u ∧
        u.isBanned = false := by
  unfold storyInFeed at h
  simp only [Bool.and_eq_true, decide_eq_true_eq, Bool.not_eq_true'] at h
  obtain ⟨⟨⟨hp, hd⟩, hc⟩, hm⟩ := h
  refine ⟨hp, hd, hc, ?_⟩
  split at hm
  · exact absurd hm (by simp)
  · rename_i uid hs
    split at hm
    · exact absurd hm (by simp)
    · rename_i u hu
      exact ⟨uid, u, hs, hu, by simpa using hm⟩

/-- A story on the returned page was matched by the shared feed query. -/
theorem mem_feedQuery_of_mem_data {st : Store}
    {beforeDate? limit? offset? : Option Nat} {orderBy? : Option String}
    {now : Nat} {s : Story}
    (h : s ∈ (allEndpoint st beforeDate? limit? offset? orderBy? now).data) :
    s ∈ feedQuery st (beforeDate?.getD now) := by
  unfold allEndpoint at h
  simp only at h
  have h1 := List.mem_of_mem_take h
  have h2 := List.mem_of_mem_drop h1
  unfold sortStories at h2
  exact (List.mem_insertionSort (fun a b => keysBefore (appliedOrderKeys orderBy?) a b = true)).mp h2

/-- Every story of a returned page satisfies every conjunct of the feed
filter (shared backbone of the page-invariant results). -/
theorem data_satisfies_filter {st : Store}
    {beforeDate? limit? offset? : Option Nat} {orderBy? : Option String}
    {now : Nat} {s : Story}
    (h : s ∈ (allEndpoint st beforeDate? limit? offset? orderBy? now).data) :
    s.isPublic = true ∧ s.isDeleted = false ∧
      s.createdAt < beforeDate?.getD now ∧
      ∃ uid u, s.userId = some uid ∧ findUser st.users uid = some u ∧
        u.isBanned = false := by
  have hq := mem_feedQuery_of_mem_data h
  unfold feedQuery at hq
  exact storyInFeed_spec (List.mem_filter.mp hq).2

/-- C3: for every feed query, every item of the returned page is public,
not soft-deleted, strictly older than the `beforeDate` cursor (the given
cursor, or now when absent), and authored by an existing, non-banned
author. -/
theorem feed_page_invariant (st : Store)
    (beforeDate? limit? offset? : Option Nat) (orderBy? : Option String)
    (now : Nat) (s : Story)
    (h : s ∈ (allEndpoint st beforeDate? limit? offset? orderBy? now).data) :
    s.isPublic = true ∧ s.isDeleted = false ∧
      s.createdAt < beforeDate?.getD now ∧
      ∃ uid u, s.userId = some uid ∧ findUser st.users uid = some u ∧
        u.isBanned = false :=
  data_satisfies_filter h

/-- A visible story row of the demonstration store. -/
def demoAuthor : User :=
  { id := 1, username := "a", email := "a", photoUrl := "", isBanned := false,
    isSuperuser := false }

/-- A feed-visible story used to instantiate the feed theorems. -/
def demoStory : Story :=
  { id := 1, userId := some 1, content := "hello", description := "",
    createdAt := 5, viewsCount := 0, likesCount := 0, isPublic := true,
    isDeleted := false, postcard := none }

/-- One author, one visible story. -/
def demoStore : Store :=
  { users := [demoAuthor], stories := [demoStory], likes := [] }

/-- Witness for C3: the demonstration store's one story is on the returned
page and the theorem instantiates at it. -/
theorem feed_page_invariant_witness :
    demoStory.isPublic = true ∧ demoStory.isDeleted = false ∧
      demoStory.createdAt < (some 10 : Option Nat).getD 0 ∧
      ∃ uid u, demoStory.userId = some uid ∧
        findUser demoStore.users uid = some u ∧ u.isBanned = false :=
  feed_page_invariant demoStore (some 10) none none none 0 demoStory
    (by decide)

/-- C10: because the feed query inner-joins each story to its author row,
an anonymously authored story (null `userId`) never reaches a feed page,
and every returned story has a non-null author reference. -/
theorem feed_excludes_anonymous (st : Store)
    (beforeDate? limit? offset? : Option Nat) (orderBy? : Option String)
    (now : Nat) (s : Story) :
    (s ∈ (allEndpoint st beforeDate? limit? offset? orderBy? now).data →
      s.userId ≠ none) ∧
    (s.userId = none →
      s ∉ (allEndpoint st beforeDate? limit? offset? orderBy? now).data) := by
  constructor
  · intro h
    obtain ⟨-, -, -, uid, u, hs, -, -⟩ := data_satisfies_filter h
    simp [hs]
  · intro hnone h
    obtain ⟨-, -, -, uid, u, hs, -, -⟩ := data_satisfies_filter h
    rw [hnone] at hs
    exact Option.noConfusion hs

/-- C8 counterexample: the feed listing's column set contains the author
sub-field `u.isBanned` — which is not a base projection column — although
the feed query takes no caller and so serves this column to non-elevated
callers too. -/
theorem feedSelect_leaks_isBanned :
    "u.isBanned" ∈ feedSelect ∧ "u.isBanned" ∉ baseSelect ∧
      oneSelect false = baseSelect := by decide

/-- C8 amended: the single-item read projects exactly the base allow-list
for a non-elevated caller and the base list plus the five author columns
for an elevated caller; the feed listing projects the base list plus the
author's `u.isBanned` for EVERY caller (its column set does not depend on
the caller at all). -/
theorem projection_tiers (c : String) :
    (c ∈ oneSelect false ↔ c ∈ baseSelect) ∧
    (c ∈ oneSelect true ↔ c ∈ baseSelect ∨
      c ∈ ["u.id", "u.username", "u.email", "u.photoUrl", "u.isBanned"]) ∧
    (c ∈ feedSelect ↔ c ∈ baseSelect ∨ c = "u.isBanned") := by
  refine ⟨by simp [oneSelect], ?_, ?_⟩
  · simp [oneSelect]
  · simp [feedSelect]

/-- Eleven feed-visible stories by the demonstration author. -/
def elevenStories : List Story :=
  (List.range 11).map (fun i =>
    { id := i + 1, userId := some 1, content := "c", description := "",
      createdAt := i, viewsCount := 0, likesCount := 0, isPublic := true,
      isDeleted := false, postcard := none })

/-- A store whose feed (cursor 100) matches exactly eleven stories. -/
def elevenStore : Store :=
  { users := [demoAuthor], stories := elevenStories, likes := [] }

/-- C5 counterexample: with 11 matching items and both pagination
parameters absent — so the defaults offset 0 and limit 10 apply to the
page — the claim requires `hasMore = (11 > 0 + 10) = true`, but the handler
computes `loaded` from the raw absent parameters (NaN) and replies
`hasMore = false`. -/
theorem hasMore_false_on_absent_params :
    (allEndpoint elevenStore (some 100) none none none 0).count = 11 ∧
    11 > 0 + 10 ∧
    (allEndpoint elevenStore (some 100) none none none 0).hasMore = false := by
  refine ⟨?_, by decide, ?_⟩ <;>
    simp [allEndpoint, hasMoreOf, feedQuery, elevenStore, elevenStories,
      storyInFeed, findUser, demoAuthor, List.range_succ]

/-- C5 amended: `hasMore` compares the total count against the RAW
parameters — when both `offset` and `limit` are present it is true exactly
when the count query's total exceeds `offset + limit` (with the raw,
unclamped limit), and when either parameter is absent it is always
false. -/
theorem hasMore_characterization (st : Store) (beforeDate? : Option Nat)
    (o l : Nat) (orderBy? : Option String) (now : Nat) :
    ((allEndpoint st beforeDate? (some l) (some o) orderBy? now).hasMore
        = true ↔
      (feedQuery st (beforeDate?.getD now)).length > o + l) ∧
    (allEndpoint st beforeDate? none (some o) orderBy? now).hasMore
        = false ∧
    (allEndpoint st beforeDate? (some l) none orderBy? now).hasMore
        = false ∧
    (allEndpoint st beforeDate? none none orderBy? now).hasMore = false := by
  refine ⟨?_, rfl, rfl, rfl⟩
  simp [allEndpoint, hasMoreOf]

/-- C7: at the two-key parameter "likesCount,viewsCount" the handler's
ORDER BY clause is the single key `story.viewsCount` — each iteration of
the token loop calls `orderBy`, which replaces the whole clause — and not
the primary-key-then-tie-break clause the claim describes. -/
theorem orderBy_keeps_only_last_key :
    appliedOrderKeys (some "likesCount,viewsCount") = ["story.viewsCount"] ∧
    claimedOrderKeys (some "likesCount,viewsCount")
      = ["story.likesCount", "story.viewsCount"] ∧
    appliedOrderKeys (some "likesCount,viewsCount")
      ≠ claimedOrderKeys (some "likesCount,viewsCount") := by
  refine ⟨by decide, by decide, by decide⟩

/-- C9: the single-item read filters by id only — whatever the story's
`isPublic`, `isDeleted` or author-ban state, the row the id resolves to is
returned with its view counter incremented, and the bumped row is what the
store then holds for that id. -/
theorem one_ignores_visibility (st : Store) (sid : Nat) (s : Story)
    (h : findStory st.stories sid = some s) :
    one st sid
      = (.found { s with viewsCount := s.viewsCount + 1 },
         updateStory st { s with viewsCount := s.viewsCount + 1 }) ∧
    findStory (one st sid).2.stories sid
      = some { s with viewsCount := s.viewsCount + 1 } := by
  have hid : s.id = sid := by
    have := List.find?_some h
    simpa using this
  subst hid
  have h2 : one st s.id
      = (.found { s with viewsCount := s.viewsCount + 1 },
         updateStory st { s with viewsCount := s.viewsCount + 1 }) := by
    simp [one, h]
  refine ⟨h2, ?_⟩
  rw [h2]
  unfold findStory at h
  exact find?_key_map_replace Story.id st.stories s.id s
    { s with viewsCount := s.viewsCount + 1 } h rfl

/-- A suppressed story: hidden duplicate (soft-deleted), not public, its
author banned. -/
def hiddenStory : Story :=
  { id := 4, userId := some 9, content := "dup", description := "",
    createdAt := 3, viewsCount := 7, likesCount := 0, isPublic := false,
    isDeleted := true, postcard := none }

/-- A banned author. -/
def bannedAuthor : User :=
  { id := 9, username := "b", email := "b", photoUrl := "", isBanned := true,
    isSuperuser := false }

/-- A store holding only the suppressed story and its banned author. -/
def hiddenStore : Store :=
  { users := [bannedAuthor], stories := [hiddenStory], likes := [] }

/-- Witness for C9: the suppressed story — soft-deleted, private, banned
author, so absent from every feed — is still served by id, with its view
counter bumped from 7 to 8. -/
theorem one_ignores_visibility_witness :
    one hiddenStore 4
      = (.found { hiddenStory with viewsCount := hiddenStory.viewsCount + 1 },
         updateStory hiddenStore
           { hiddenStory with viewsCount := hiddenStory.viewsCount + 1 }) ∧
    findStory (one hiddenStore 4).2.stories 4
      = some { hiddenStory with viewsCount := hiddenStory.viewsCount + 1 } :=
  one_ignores_visibility hiddenStore 4 hiddenStory (by decide)

/-- The author of story 7. -/
def ownerUser : User :=
  { id := 1, username := "o", email := "o", photoUrl := "", isBanned := false,
    isSuperuser := false }

/-- An unrelated, non-elevated user. -/
def strangerUser : User :=
  { id := 2, username := "s", email := "s", photoUrl := "", isBanned := false,
    isSuperuser := false }

/-- A story authored by user 1. -/
def ownedStory : Story :=
  { id := 7, userId := some 1, content := "c", description := "",
    createdAt := 1, viewsCount := 0, likesCount := 0, isPublic := true,
    isDeleted := false, postcard := none }

/-- Owner, stranger, and the owned story. -/
def editStore : Store :=
  { users := [ownerUser, strangerUser], stories := [ownedStory], likes := [] }

/-- C1 (as the code behaves): the edit guard admits ANY caller whose author
record resolves — here user 2, who neither authored story 7 nor is a
superuser, gets `.ok` — while an anonymous caller is rejected with
Forbidden.  The source's rejection test `!user && !isSuperuser && !isOwner`
can only fire when `user` is unresolved, and its `isOwner` is computed with
an inverted comparison (`story.userId !== user.id`). -/
theorem edit_admits_any_resolved_user :
    (edit editStore (some 2) 7 (fun s => { s with content := "x" })
        (fun _ => true)).1
      = .ok { ownedStory with content := "x" } ∧
    (edit editStore none 7 (fun s => { s with content := "x" })
        (fun _ => true)).1
      = .forbidden := by decide

/-- A registered user who will attempt to like a missing story. -/
def likeUser : User :=
  { id := 3, username := "l", email := "l", photoUrl := "", isBanned := false,
    isSuperuser := false }

/-- A store holding user 3, no stories, no likes. -/
def likeStore : Store :=
  { users := [likeUser], stories := [], likes := [] }

/-- C6 counterexample: no Like row exists for the pair (3, 9) and story 9
is absent, yet the handler replies 500 (the `findOneOrFail` throw lands in
the catch-all), not NotFound. -/
theorem like_missing_story_is_500 :
    like likeStore 3 9 = (.internalError, likeStore) ∧
    (like likeStore 3 9).1 ≠ LikeResult.notFound := by decide

/-- C6 amended: a like request fails Conflict when a Like row for the pair
already exists (and changes nothing); otherwise, when the story or the user
is missing, it fails with a generic 500 internal error — NOT NotFound —
and changes nothing; otherwise the Like row for the pair is created and the
call succeeds. -/
theorem like_behaviour (st : Store) (uid sid : Nat) :
    ((findLike st.likes uid sid).isSome = true →
      like st uid sid = (.conflict, st)) ∧
    (findLike st.likes uid sid = none →
      (findStory st.stories sid = none ∨ findUser st.users uid = none) →
      like st uid sid = (.internalError, st)) ∧
    (findLike st.likes uid sid = none →
      (findStory st.stories sid).isSome = true →
      (findUser st.users uid).isSome = true →
      like st uid sid
        = (.ok, { st with
            likes := st.likes ++ [{ userId := uid, storyId := sid }] })) := by
  refine ⟨?_, ?_, ?_⟩
  · intro h
    obtain ⟨l, hl⟩ := Option.isSome_iff_exists.mp h
    simp [like, hl]
  · intro hl hmiss
    rcases hmiss with hs | hu
    · simp [like, hl, hs]
    · cases hs : findStory st.stories sid with
      | none => simp [like, hl, hs]
      | some s => simp [like, hl, hs, hu]
  · intro hl hs hu
    obtain ⟨s, hs⟩ := Option.isSome_iff_exists.mp hs
    obtain ⟨u, hu⟩ := Option.isSome_iff_exists.mp hu
    simp [like, hl, hs, hu]

/-- C4: a submission by an author whose banned flag is already set persists
nothing — the store is returned exactly unchanged — and the caller gets the
success reply carrying the constructed story object (the same object a
normal accepted submission constructs before its first save), with no error
surfaced.  The guard runs before validation, so this holds for every
submission by a banned author. -/
theorem banned_author_silent_drop (st : Store) (uid : Nat) (u : User)
    (content description : String) (valid : Story → Bool)
    (pc : Story → Option String) (newId now : Nat)
    (hu : findUser st.users uid = some u) (hb : u.isBanned = true) :
    create st (some uid) content description valid pc newId now
      = (.silentUnsaved (mkStory (some uid) content description), st) := by
  simp [create, hu, hb]

/-- Witness for C4: the banned author of the suppressed-story store submits
again; nothing is saved and the constructed story is returned. -/
theorem banned_author_silent_drop_witness :
    create hiddenStore (some 9) "again" "d" (fun _ => true) (fun _ => some "p")
        77 50
      = (.silentUnsaved (mkStory (some 9) "again" "d"), hiddenStore) :=
  banned_author_silent_drop hiddenStore 9 bannedAuthor "again" "d"
    (fun _ => true) (fun _ => some "p") 77 50 (by decide) (by decide)

/-- The ids of the assigned and the persisted row are the assigned id. -/
@[simp]
theorem assignRow_id (s : Story) (newId now : Nat) :
    (assignRow s newId now).id = newId := rfl

/-- The persisted row keeps the assigned id. -/
@[simp]
theorem savedRow_id (s : Story) (newId now : Nat) (p : String) :
    (savedRow s newId now p).id = newId := rfl

/-- When the postcard renderer succeeds and the assigned id is fresh, the
save tail persists exactly one new row — the submitted story with its
assigned id, timestamp and postcard — and reports it saved. -/
theorem finishSave_spec (st : Store) (s : Story) (pc : Story → Option String)
    (newId now : Nat) (p : String)
    (hp : pc (assignRow s newId now) = some p)
    (hfresh : ∀ t ∈ st.stories, t.id ≠ newId) :
    finishSave st s pc newId now
      = (.saved (savedRow s newId now p),
         { st with stories := st.stories ++ [savedRow s newId now p] }) := by
  have hmap : (st.stories ++ [assignRow s newId now]).map
      (fun t => if t.id == newId then savedRow s newId now p else t)
      = st.stories ++ [savedRow s newId now p] := by
    rw [List.map_append]
    congr 1
    · exact map_replace_of_key_not_mem Story.id st.stories newId _ hfresh
    · simp [assignRow, savedRow]
  unfold finishSave
  rw [hp]
  simp only [updateStory, insertStory, savedRow_id, hmap]

/-- The user-table write of the escalation branch: every row with the
author's id replaced by the banned row. -/
def banAuthor (users : List User) (uid : Nat) (banned : User) : List User :=
  users.map (fun x => if x.id == uid then banned else x)

/-- C2: for an authenticated, non-banned author whose (validated)
submission has body content matching `n` existing rows of the duplicate
query: at `n = 0` the item is persisted visible (`isPublic`, not
`isDeleted`); at `0 < n < 20` it is persisted with `isDeleted = true` and
still reported saved to the caller; at `n ≥ 20` the author's banned flag is
set and persisted and no story row is added.  (`pc` is assumed to succeed
and `newId` to be fresh, as the store guarantees.) -/
theorem duplicate_submission_outcomes (st : Store) (uid : Nat) (u : User)
    (content description : String) (valid : Story → Bool)
    (pc : Story → Option String) (newId now : Nat)
    (hu : findUser st.users uid = some u)
    (hb : u.isBanned = false)
    (hv : valid (mkStory (some uid) content description) = true)
    (hpc : ∀ s, (pc s).isSome = true)
    (hfresh : ∀ t ∈ st.stories, t.id ≠ newId) :
    (duplicateCount st.stories uid content = 0 →
      ∃ s, create st (some uid) content description valid pc newId now
          = (.saved s, { st with stories := st.stories ++ [s] }) ∧
        s.userId = some uid ∧ s.content = content ∧
        s.isPublic = true ∧ s.isDeleted = false) ∧
    (0 < duplicateCount st.stories uid content →
      duplicateCount st.stories uid content < 20 →
      ∃ s, create st (some uid) content description valid pc newId now
          = (.saved s, { st with stories := st.stories ++ [s] }) ∧
        s.userId = some uid ∧ s.content = content ∧ s.isDeleted = true) ∧
    (20 ≤ duplicateCount st.stories uid content →
      (create st (some uid) content description valid pc newId now).2.stories
          = st.stories ∧
      (create st (some uid) content description valid pc newId now).1
          = .silentUnsaved (mkStory (some uid) content description) ∧
      findUser
          (create st (some uid) content description valid pc newId now).2.users
          uid
        = some { u with isBanned := true }) := by
  have huid : u.id = uid := by
    have := List.find?_some hu
    simpa using this
  refine ⟨?_, ?_, ?_⟩
  · intro h0
    obtain ⟨p, hp⟩ := Option.isSome_iff_exists.mp
      (hpc (assignRow (mkStory (some uid) content description) newId now))
    have hstep : create st (some uid) content description valid pc newId now
        = finishSave st (mkStory (some uid) content description) pc newId
            now := by
      simp [create, hu, hb, hv, h0]
    refine ⟨savedRow (mkStory (some uid) content description) newId now p,
      ?_, rfl, rfl, rfl, rfl⟩
    rw [hstep]
    exact finishSave_spec st _ pc newId now p hp hfresh
  · intro h1 h2
    obtain ⟨p, hp⟩ := Option.isSome_iff_exists.mp
      (hpc (assignRow
        { mkStory (some uid) content description with isDeleted := true }
        newId now))
    have hne : ¬ duplicateCount st.stories uid content = 0 := by omega
    have hstep : create st (some uid) content description valid pc newId now
        = finishSave st
            { mkStory (some uid) content description with isDeleted := true }
            pc newId now := by
      simp [create, hu, hb, hv, hne, h2]
    refine ⟨savedRow
        { mkStory (some uid) content description with isDeleted := true }
        newId now p,
      ?_, rfl, rfl, rfl⟩
    rw [hstep]
    exact finishSave_spec st _ pc newId now p hp hfresh
  · intro h20
    have hne : ¬ duplicateCount st.stories uid content = 0 := by omega
    have hnl : ¬ duplicateCount st.stories uid content < 20 := by omega
    have hstep : create st (some uid) content description valid pc newId now
        = (.silentUnsaved (mkStory (some uid) content description),
           { st with users :=
               banAuthor st.users uid { u with isBanned := true } }) := by
      simp [create, hu, hb, hv, hne, hnl, banAuthor]
    rw [hstep]
    refine ⟨rfl, rfl, ?_⟩
    exact find?_key_map_replace User.id st.users uid u
      { u with isBanned := true } hu (by simpa using huid)

/-- An author with one prior public copy of the content "dup". -/
def dupAuthor : User :=
  { id := 5, username := "d", email := "d", photoUrl := "", isBanned := false,
    isSuperuser := false }

/-- The one existing public duplicate. -/
def dupStory : Story :=
  { id := 1, userId := some 5, content := "dup", description := "",
    createdAt := 2, viewsCount := 0, likesCount := 0, isPublic := true,
    isDeleted := false, postcard := none }

/-- A store in which author 5 has submitted "dup" once before. -/
def dupStore : Store :=
  { users := [dupAuthor], stories := [dupStory], likes := [] }

/-- Witness for C2: resubmitting "dup" (duplicate count 1) persists the new
row soft-deleted while reporting it saved. -/
theorem duplicate_submission_outcomes_witness :
    ∃ s, create dupStore (some 5) "dup" "d" (fun _ => true)
          (fun _ => some "p") 2 50
        = (.saved s, { dupStore with stories := dupStore.stories ++ [s] }) ∧
      s.userId = some 5 ∧ s.content = "dup" ∧ s.isDeleted = true :=
  (duplicate_submission_outcomes dupStore 5 dupAuthor "dup" "d"
      (fun _ => true) (fun _ => some "p") 2 50 (by decide) (by decide) rfl
      (fun _ => rfl) (by decide)).2.1 (by decide) (by decide)
